import Mathlib

/-!
Shallow embedding of the Surfer endless-runner core: the frame-loop state
machine of src/unnamed/part_004 (scoring, combo, lives, power-up timers,
obstacle collision resolution, pause handling, the seeded RNG), the combo
update of the older revision src/components/Runner3D.tsx, and the
leaderboard POST handler of src/app/api/leaderboard/route.ts.

Machine integers are modelled as Nat with explicit reduction mod 2^32
where the JavaScript source relies on 32-bit semantics. Exact rational
arithmetic stands in for IEEE doubles at the spots (score rounding, the
0.05 distance factor, lane fractions, spawn-weight thresholds) where every
value involved is exactly representable or the rounding provably agrees.
Entity geometry and rendering are abstracted into per-frame boolean
contact flags; all branch logic and state updates follow the source.
-/

namespace Surfer

/-- Reduction mod 2^32: the unsigned bit pattern JavaScript 32-bit
operators work on. -/
def m32 (n : Nat) : Nat := n % 4294967296

/-- Math.imul: 32-bit multiply, tracked as the unsigned bit pattern. -/
def imul32 (a b : Nat) : Nat := m32 (a * b)

/-- One call of the closure returned by mulberry32 (part_004 lines 11-18):
the state update a += 0x6D2B79F5 followed by the tempering chain. Returns
the new state and the 32-bit output numerator; the JS float result is
that numerator divided by 2^32. -/
def mulberryStep (a : Nat) : Nat × Nat :=
  let a2 := m32 (a + 0x6D2B79F5)
  let t1 := imul32 (a2 ^^^ (a2 >>> 15)) (a2 ||| 1)
  let t2 := t1 ^^^ m32 (t1 + imul32 (t1 ^^^ (t1 >>> 7)) (t1 ||| 61))
  (a2, t2 ^^^ (t2 >>> 14))

/-- RNG internal state after k draws from the given seed. -/
def mulberryState (seed : Nat) : Nat → Nat
  | 0 => m32 seed
  | k + 1 => (mulberryStep (mulberryState seed k)).1

/-- Numerator of draw k of the run RNG (the JS value is this over 2^32). -/
def mulberryOut (seed k : Nat) : Nat := (mulberryStep (mulberryState seed k)).2

/-- Effective run seed (part_004 lines 416-418): the stream is
mulberry32((dailySeed XOR 0xB055) XOR runSalt), where runSalt is the
wall clock (Date.now() >>> 0), fresh on every run. -/
def mixSeed (dailySeed runSalt : Nat) : Nat :=
  m32 ((dailySeed ^^^ 0xB055) ^^^ runSalt)

/-- Lane x-coordinates in tenths: lanes = [-1.2, 0, 1.2] (part_004 line
642), scaled by 10 to stay in integers (every value is exact in doubles). -/
def lanesTenths : List ℤ := [-12, 0, 12]

/-- Lane picked by draw k: lanes[Math.floor(rand() * lanes.length)]
(part_004 line 809), in tenths. For r = out / 2^32 the double
computation Math.floor(r * 3) is exact and equals 3 * out / 2^32 in
integers. -/
def laneOfDraw (seed k : Nat) : ℤ :=
  lanesTenths.getD (3 * mulberryOut seed k / 4294967296) 0

/-- Lanes of the ten obstacles preloaded at run start (part_004 line 975:
for i = 1..10 spawnObstacle(-i*12)), assuming the RNG cursor is at draw
k0 when the preload begins. spawnObstacle (lines 808-855) consumes
exactly 7 draws per call: lane, air/ground, shape, move, rot, amp, spd. -/
def preloadLanes (seed k0 : Nat) : List ℤ :=
  (List.range 10).map fun i => laneOfDraw seed (k0 + 7 * i)

/-- COMBO_MAX (part_004 line 124). -/
def COMBO_MAX : Nat := 5

/-- COMBO_WINDOW_MS (part_004 line 123). -/
def COMBO_WINDOW_MS : Nat := 2500

/-- Power-up durations in ms (part_004 lines 127-133); FLY_MS is the
5000 ms flight of startFlight (line 891). -/
def MAGNET_MS : Nat := 10000

/-- BOOST_MS (part_004 line 128). -/
def BOOST_MS : Nat := 6000

/-- SHIELD_MS (part_004 line 129). -/
def SHIELD_MS : Nat := 12000

/-- DOUBLE_MS (part_004 line 130). -/
def DOUBLE_MS : Nat := 8000

/-- RISK_MS (part_004 line 133). -/
def RISK_MS : Nat := 10000

/-- Flight duration set by startFlight (part_004 line 891). -/
def FLY_MS : Nat := 5000

/-- Combo update on orb pickup in part_004 line 1449:
comboRef.current = Math.min(COMBO_MAX, comboRef.current + 1).
No combo-window test is made at this point in part_004. -/
def comboAfterPickup (combo : Nat) : Nat := min COMBO_MAX (combo + 1)

/-- Combo update of the older revision src/components/Runner3D.tsx lines
1118-1120, which does gate on the combo window: increment when
now - lastPickupAt is within COMBO_WINDOW_MS, otherwise restart at 1,
then cap at COMBO_MAX. -/
def comboUpdateLegacy (combo lastPickupAt now : Nat) : Nat :=
  min COMBO_MAX (if now - lastPickupAt ≤ COMBO_WINDOW_MS then combo + 1 else 1)

/-- Risk multiplier at an orb pickup (part_004 line 1452): 2 while the
risk timer is active, else 1. -/
def riskMult (now riskUntil : Nat) : ℤ := if now < riskUntil then 2 else 1

/-- Score added per orb pickup (part_004 lines 1452-1454):
Math.round(10 * (1 + Math.min(COMBO_MAX, combo) * 0.2) * riskMult),
with 0.2 as the exact rational 1/5 (every intermediate value rounds to
the same integer in doubles). -/
def orbAward (combo : Nat) (risky : Bool) : ℤ :=
  round ((10 : ℚ) * (1 + ((min COMBO_MAX combo : Nat) : ℚ) * (1 / 5)) *
    (if risky then 2 else 1))

/-- Pooled obstacle as the collision pass sees it: the active flag and
whether the padded player box intersects its box this frame
(expandedAABB.intersectsBox(o.aabb), part_004 line 1545). The float box
geometry is abstracted into the overlap flag. -/
structure Obst where
  active : Bool
  overlap : Bool
deriving DecidableEq, Repr

/-- Power-up kinds (part_004 line 154). -/
inductive PowerKind where
  | magnet | boost | shield | double | risk | wings | heart
deriving DecidableEq, Repr

/-- FORCE_WINGS flag (part_004 line 932), set to true in the source with
the comment TEMP: force wings to test. -/
def FORCE_WINGS : Bool := true

/-- Weighted chain of part_004 lines 935-941 without the FORCE_WINGS
override, applied to the draw r in [0,1). The arms are tested in source
order; note the wings arm tests r < 0.82 after the double arm already
consumed every r < 0.89. -/
def spawnPowerKindDraw (r : ℚ) : PowerKind :=
  if r < 26/100 then .magnet
  else if r < 52/100 then .boost
  else if r < 74/100 then .shield
  else if r < 89/100 then .double
  else if r < 82/100 then .wings
  else if r < 98/100 then .heart
  else .risk

/-- Kind of a spawned power-up (part_004 lines 931-941). -/
def spawnPowerKind (r : ℚ) : PowerKind :=
  if FORCE_WINGS then .wings else spawnPowerKindDraw r

/-- Claim-relevant mutable state of one run of the animate loop
(part_004): tick counter t (line 631/1139), localScore and localDead
(lines 1080-1081), combo and lastPickupAt refs (lines 287-288),
livesRef (line 268), the until timer refs (lines 256-265), the frame
timing state (line 1076), the dt applied to dt-scaled updates this
frame, and the obstacle pool flags after the collision pass. -/
structure GState where
  t : Nat
  score : ℤ
  combo : Nat
  lastPickupAt : Nat
  lives : ℤ
  dead : Bool
  magnetUntil : Nat
  boostUntil : Nat
  shieldUntil : Nat
  doubleUntil : Nat
  riskUntil : Nat
  flyUntil : Nat
  invincibleUntil : Nat
  lastFrameTime : Nat
  lastDt : Nat
  obstacles : List Obst
deriving DecidableEq, Repr

/-- Fresh-run state: lives 3 (handleStart and handleRetry), every timer
and counter cleared (part_004 lines 980-987, 1711-1714, 1743-1753). -/
def initState : GState :=
  { t := 0, score := 0, combo := 0, lastPickupAt := 0, lives := 3,
    dead := false, magnetUntil := 0, boostUntil := 0, shieldUntil := 0,
    doubleUntil := 0, riskUntil := 0, flyUntil := 0, invincibleUntil := 0,
    lastFrameTime := 0, lastDt := 0, obstacles := [] }

/-- Orb pickup branch (part_004 lines 1439-1455): record the pickup
time, bump the combo (capped), and add the rounded award computed from
the post-bump combo, doubled while risk is active. -/
def orbPickupStep (now : Nat) (s : GState) : GState :=
  let c := comboAfterPickup s.combo
  { s with lastPickupAt := now, combo := c,
           score := s.score + orbAward c (decide (now < s.riskUntil)) }

/-- Fold of the orb pickup branch over the n orbs eaten this frame. -/
def applyOrbPickups (now : Nat) : Nat → GState → GState
  | 0, s => s
  | n + 1, s => applyOrbPickups now n (orbPickupStep now s)

/-- Sub-state read and written by the obstacle collision pass. -/
structure HitSt where
  lives : ℤ
  dead : Bool
  shieldUntil : Nat
  invincibleUntil : Nat
deriving DecidableEq, Repr

/-- Obstacle collision loop (part_004 lines 1543-1580). For each active
overlapping obstacle, in order: while flying or invincible the hit is
skipped entirely; else with shield active the obstacle is deactivated
and shieldUntil becomes now + 400; else one life is lost (clamped at 0),
a 1000 ms invincibility window starts, and when the remaining lives
reach 0 the run dies and the loop breaks. -/
def resolveObstacles (now : Nat) (inSky : Bool) :
    HitSt → List Obst → HitSt × List Obst
  | st, [] => (st, [])
  | st, o :: rest =>
    if o.active && o.overlap then
      if inSky || decide (now < st.invincibleUntil) then
        let p := resolveObstacles now inSky st rest
        (p.1, o :: p.2)
      else if now < st.shieldUntil then
        let p := resolveObstacles now inSky { st with shieldUntil := now + 400 } rest
        (p.1, { o with active := false } :: p.2)
      else
        let nextLives := max 0 (st.lives - 1)
        let st2 := { st with lives := nextLives, invincibleUntil := now + 1000 }
        if nextLives ≤ 0 then ({ st2 with dead := true }, o :: rest)
        else
          let p := resolveObstacles now inSky st2 rest
          (p.1, o :: p.2)
    else
      let p := resolveObstacles now inSky st rest
      (p.1, o :: p.2)

/-- Effect of touching a power-up (part_004 lines 1587-1593). Each
timer is assigned now + duration directly. wings calls startFlight
(lines 890-896), modelled by its flyUntil update; heart raises lives
through setLives, mirrored into livesRef by the effect at line 269. -/
def powerEffect (k : PowerKind) (now : Nat) (s : GState) : GState :=
  match k with
  | .magnet => { s with magnetUntil := now + MAGNET_MS }
  | .boost => { s with boostUntil := now + BOOST_MS }
  | .shield => { s with shieldUntil := now + SHIELD_MS }
  | .double => { s with doubleUntil := now + DOUBLE_MS }
  | .risk => { s with riskUntil := now + RISK_MS }
  | .wings => { s with flyUntil := now + FLY_MS }
  | .heart => { s with lives := min 3 (s.lives + 1) }

/-- Fold of the power touch branch over the kinds touched this frame. -/
def applyPowerTouches (now : Nat) : List PowerKind → GState → GState
  | [], s => s
  | k :: ks, s => applyPowerTouches now ks (powerEffect k now s)

/-- The six power kinds carrying an active-until timer (heart has none). -/
inductive TimerKind where
  | magnet | boost | shield | double | risk | wings
deriving DecidableEq, Repr

/-- Embeds a timer kind back into the power-up enum. -/
def TimerKind.toPower : TimerKind → PowerKind
  | .magnet => .magnet
  | .boost => .boost
  | .shield => .shield
  | .double => .double
  | .risk => .risk
  | .wings => .wings

/-- Duration added to now on pickup, per timer kind. -/
def durMs : TimerKind → Nat
  | .magnet => MAGNET_MS
  | .boost => BOOST_MS
  | .shield => SHIELD_MS
  | .double => DOUBLE_MS
  | .risk => RISK_MS
  | .wings => FLY_MS

/-- Projection of the matching until timer out of the run state. -/
def timerSel : TimerKind → GState → Nat
  | .magnet, s => s.magnetUntil
  | .boost, s => s.boostUntil
  | .shield, s => s.shieldUntil
  | .double, s => s.doubleUntil
  | .risk, s => s.riskUntil
  | .wings, s => s.flyUntil

/-- Distance score baseline (part_004 line 1615): Math.floor(t * 0.05),
modelled exactly as the integer floor of t * 5 / 100. -/
def distScore (t : Nat) : Nat := t * 5 / 100

/-- Per-frame inputs: the wall-clock timestamp, the pause flag, and the
frame contacts (orbs eaten, obstacle pool with overlap flags, power-up
kinds touched), which abstract the float entity geometry. -/
structure FrameInput where
  now : Nat
  paused : Bool
  orbHits : Nat
  obstacles : List Obst
  powerHits : List PowerKind
deriving Repr

/-- Frame timing (part_004 lines 1110-1114, 1139): stamp the frame time,
record dt = Math.max(1, now - lastFrameTime) — the dt that feeds the
dt-scaled lane tween and particle updates this frame — and advance the
tick counter t. -/
def frameTiming (inp : FrameInput) (s : GState) : GState :=
  { s with lastFrameTime := inp.now,
           lastDt := max 1 (inp.now - s.lastFrameTime), t := s.t + 1 }

/-- Combo perk (part_004 lines 1221-1223): with combo at 3 or more and
not flying, the magnet timer is extended to at least now + 180. -/
def comboPerk (now : Nat) (inSky : Bool) (s : GState) : GState :=
  if !inSky && decide (3 ≤ s.combo) then
    { s with magnetUntil := max s.magnetUntil (now + 180) }
  else s

/-- Obstacle collision pass wired into the run state (part_004 lines
1543-1580): the pooled obstacles with this frame's overlap flags go
through resolveObstacles and the touched sub-state is written back. -/
def applyObstaclePass (now : Nat) (inSky : Bool) (obs : List Obst)
    (s : GState) : GState :=
  let r := resolveObstacles now inSky
    { lives := s.lives, dead := s.dead, shieldUntil := s.shieldUntil,
      invincibleUntil := s.invincibleUntil } obs
  { s with lives := r.1.lives, dead := r.1.dead,
           shieldUntil := r.1.shieldUntil,
           invincibleUntil := r.1.invincibleUntil, obstacles := r.2 }

/-- Distance score baseline (part_004 line 1615): while alive,
localScore = Math.max(localScore, Math.floor(t * 0.05)). -/
def frameBaseline (s : GState) : GState :=
  if s.dead then s else { s with score := max s.score (distScore s.t : ℤ) }

/-- Body of one unpaused animate call (part_004 lines 1110-1623) in
source order: timing and tick, inSky = now < flyUntil (line 1115), the
combo-3 magnet perk, orb pickups, the obstacle collision pass, power-up
touches, and the distance-score baseline. Spawning, camera work and the
cosmetic slow-motion timer are not modelled. -/
def frameCore (inp : FrameInput) (s : GState) : GState :=
  let inSky : Bool := decide (inp.now < s.flyUntil)
  frameBaseline (applyPowerTouches inp.now inp.powerHits
    (applyObstaclePass inp.now inSky inp.obstacles
      (applyOrbPickups inp.now inp.orbHits
        (comboPerk inp.now inSky (frameTiming inp s)))))

/-- One call of animate (part_004 lines 1098-1643). While paused the
frame only renders and returns with no state change (lines 1103-1107);
after a death the loop is never rescheduled (line 1628), modelled by the
dead guard. -/
def animateFrame (inp : FrameInput) (s : GState) : GState :=
  if inp.paused || s.dead then s else frameCore inp s

/-- State after a list of frames, starting from the fresh-run state. -/
def reach (inps : List FrameInput) : GState :=
  inps.foldl (fun s inp => animateFrame inp s) initState

/-- n frames at dt = 16 ms with zero input and no entity contacts. -/
def zeroRun (n : Nat) : List FrameInput :=
  (List.range n).map fun i =>
    { now := 16 * (i + 1), paused := false, orbHits := 0,
      obstacles := [], powerHits := [] }

/-- Closed form of the state reached by n zero-input frames. -/
def zeroState (n : Nat) : GState :=
  { initState with
      t := n
      score := (distScore n : ℤ)
      lastFrameTime := 16 * n
      lastDt := if n = 0 then 0 else 16 }

/-- Concrete frame trace for the pause scenario: one active frame at
16 ms, a pause held across two rendered-only frames, then the resuming
frame at 5016 ms. lastFrameTime is untouched while paused, so the
resuming frame computes dt from the last unpaused frame. -/
def pauseRunInputs : List FrameInput :=
  [ { now := 16, paused := false, orbHits := 0, obstacles := [],
      powerHits := [] },
    { now := 2000, paused := true, orbHits := 0, obstacles := [],
      powerHits := [] },
    { now := 4000, paused := true, orbHits := 0, obstacles := [],
      powerHits := [] },
    { now := 5016, paused := false, orbHits := 0, obstacles := [],
      powerHits := [] } ]

/-- Submitted score merged with the stored one (route.ts line 61):
next = prev != null ? Math.max(Number(prev), score) : score. -/
def lbNext (prev : Option ℚ) (score : ℚ) : ℚ :=
  match prev with
  | some p => max p score
  | none => score

/-- Stored value for the member after the POST (route.ts lines 60-64):
zadd writes the merged value when the member was absent or the merged
value differs from the stored one; otherwise the store is untouched. -/
def lbStoredAfter (prev : Option ℚ) (score : ℚ) : Option ℚ :=
  match prev with
  | none => some (lbNext none score)
  | some p => if lbNext (some p) score ≠ p then some (lbNext (some p) score)
              else some p

/-- Score field of the JSON response (route.ts line 65). -/
def lbResponseScore (prev : Option ℚ) (score : ℚ) : ℚ := lbNext prev score

/-! ### Helper lemmas about the orb award -/

theorem orbAward_eq (c : Nat) (r : Bool) :
    orbAward c r =
      (10 + 2 * ((min COMBO_MAX c : Nat) : ℤ)) * (if r then 2 else 1) := by
  unfold orbAward
  have h : (10 : ℚ) * (1 + ((min COMBO_MAX c : Nat) : ℚ) * (1 / 5)) *
      (if r then 2 else 1) =
      (((10 + 2 * ((min COMBO_MAX c : Nat) : ℤ)) * (if r then 2 else 1) : ℤ) : ℚ) := by
    cases r <;> push_cast <;> ring
  rw [h, round_intCast]

theorem orbAward_nonneg (c : Nat) (r : Bool) : 0 ≤ orbAward c r := by
  rw [orbAward_eq]
  refine mul_nonneg ?_ ?_
  · have h0 : (0 : ℤ) ≤ ((min COMBO_MAX c : Nat) : ℤ) := Int.natCast_nonneg _
    nlinarith
  · split <;> norm_num

/-! ### Projection lemmas for the frame stages -/

theorem frameTiming_score (inp : FrameInput) (s : GState) :
    (frameTiming inp s).score = s.score := rfl

theorem frameTiming_lives (inp : FrameInput) (s : GState) :
    (frameTiming inp s).lives = s.lives := rfl

theorem frameTiming_dead (inp : FrameInput) (s : GState) :
    (frameTiming inp s).dead = s.dead := rfl

theorem frameTiming_lastDt (inp : FrameInput) (s : GState) :
    (frameTiming inp s).lastDt = max 1 (inp.now - s.lastFrameTime) := rfl

theorem comboPerk_score (now : Nat) (b : Bool) (s : GState) :
    (comboPerk now b s).score = s.score := by
  unfold comboPerk; split <;> rfl

theorem comboPerk_lives (now : Nat) (b : Bool) (s : GState) :
    (comboPerk now b s).lives = s.lives := by
  unfold comboPerk; split <;> rfl

theorem comboPerk_dead (now : Nat) (b : Bool) (s : GState) :
    (comboPerk now b s).dead = s.dead := by
  unfold comboPerk; split <;> rfl

theorem comboPerk_lastDt (now : Nat) (b : Bool) (s : GState) :
    (comboPerk now b s).lastDt = s.lastDt := by
  unfold comboPerk; split <;> rfl

theorem comboPerk_shieldUntil (now : Nat) (b : Bool) (s : GState) :
    (comboPerk now b s).shieldUntil = s.shieldUntil := by
  unfold comboPerk; split <;> rfl

theorem comboPerk_invincibleUntil (now : Nat) (b : Bool) (s : GState) :
    (comboPerk now b s).invincibleUntil = s.invincibleUntil := by
  unfold comboPerk; split <;> rfl

theorem orbPickupStep_lives (now : Nat) (s : GState) :
    (orbPickupStep now s).lives = s.lives := rfl

theorem orbPickupStep_dead (now : Nat) (s : GState) :
    (orbPickupStep now s).dead = s.dead := rfl

theorem orbPickupStep_lastDt (now : Nat) (s : GState) :
    (orbPickupStep now s).lastDt = s.lastDt := rfl

theorem orbPickupStep_shieldUntil (now : Nat) (s : GState) :
    (orbPickupStep now s).shieldUntil = s.shieldUntil := rfl

theorem orbPickupStep_invincibleUntil (now : Nat) (s : GState) :
    (orbPickupStep now s).invincibleUntil = s.invincibleUntil := rfl

theorem orbPickupStep_score_le (now : Nat) (s : GState) :
    s.score ≤ (orbPickupStep now s).score := by
  simp only [orbPickupStep]
  have := orbAward_nonneg (comboAfterPickup s.combo) (decide (now < s.riskUntil))
  omega

theorem applyOrbPickups_lives (now n : Nat) (s : GState) :
    (applyOrbPickups now n s).lives = s.lives := by
  induction n generalizing s with
  | zero => rfl
  | succ n ih => simp only [applyOrbPickups]; rw [ih, orbPickupStep_lives]

theorem applyOrbPickups_dead (now n : Nat) (s : GState) :
    (applyOrbPickups now n s).dead = s.dead := by
  induction n generalizing s with
  | zero => rfl
  | succ n ih => simp only [applyOrbPickups]; rw [ih, orbPickupStep_dead]

theorem applyOrbPickups_lastDt (now n : Nat) (s : GState) :
    (applyOrbPickups now n s).lastDt = s.lastDt := by
  induction n generalizing s with
  | zero => rfl
  | succ n ih => simp only [applyOrbPickups]; rw [ih, orbPickupStep_lastDt]

theorem applyOrbPickups_shieldUntil (now n : Nat) (s : GState) :
    (applyOrbPickups now n s).shieldUntil = s.shieldUntil := by
  induction n generalizing s with
  | zero => rfl
  | succ n ih => simp only [applyOrbPickups]; rw [ih, orbPickupStep_shieldUntil]

theorem applyOrbPickups_invincibleUntil (now n : Nat) (s : GState) :
    (applyOrbPickups now n s).invincibleUntil = s.invincibleUntil := by
  induction n generalizing s with
  | zero => rfl
  | succ n ih => simp only [applyOrbPickups]; rw [ih, orbPickupStep_invincibleUntil]

theorem applyOrbPickups_score_le (now n : Nat) (s : GState) :
    s.score ≤ (applyOrbPickups now n s).score := by
  induction n generalizing s with
  | zero => exact le_refl _
  | succ n ih =>
    simp only [applyOrbPickups]
    exact le_trans (orbPickupStep_score_le now s) (ih _)

theorem powerEffect_score (k : PowerKind) (now : Nat) (s : GState) :
    (powerEffect k now s).score = s.score := by
  cases k <;> rfl

theorem powerEffect_lastDt (k : PowerKind) (now : Nat) (s : GState) :
    (powerEffect k now s).lastDt = s.lastDt := by
  cases k <;> rfl

theorem powerEffect_dead (k : PowerKind) (now : Nat) (s : GState) :
    (powerEffect k now s).dead = s.dead := by
  cases k <;> rfl

theorem applyPowerTouches_score (now : Nat) (ks : List PowerKind) (s : GState) :
    (applyPowerTouches now ks s).score = s.score := by
  induction ks generalizing s with
  | nil => rfl
  | cons k ks ih => simp only [applyPowerTouches]; rw [ih, powerEffect_score]

theorem applyPowerTouches_lastDt (now : Nat) (ks : List PowerKind) (s : GState) :
    (applyPowerTouches now ks s).lastDt = s.lastDt := by
  induction ks generalizing s with
  | nil => rfl
  | cons k ks ih => simp only [applyPowerTouches]; rw [ih, powerEffect_lastDt]

theorem applyObstaclePass_score (now : Nat) (b : Bool) (obs : List Obst)
    (s : GState) : (applyObstaclePass now b obs s).score = s.score := rfl

theorem applyObstaclePass_lastDt (now : Nat) (b : Bool) (obs : List Obst)
    (s : GState) : (applyObstaclePass now b obs s).lastDt = s.lastDt := rfl

theorem frameBaseline_score_le (s : GState) : s.score ≤ (frameBaseline s).score := by
  unfold frameBaseline; split
  · exact le_refl _
  · exact le_max_left _ _

theorem frameBaseline_lives (s : GState) : (frameBaseline s).lives = s.lives := by
  unfold frameBaseline; split <;> rfl

theorem frameBaseline_dead (s : GState) : (frameBaseline s).dead = s.dead := by
  unfold frameBaseline; split <;> rfl

theorem frameBaseline_lastDt (s : GState) : (frameBaseline s).lastDt = s.lastDt := by
  unfold frameBaseline; split <;> rfl

/-! ### Lives invariant lemmas -/

theorem resolveObstacles_fst_inv (now : Nat) (inSky : Bool) (obs : List Obst)
    (st : HitSt) (h0 : 0 ≤ st.lives) (h3 : st.lives ≤ 3)
    (ha : st.dead = false → 1 ≤ st.lives) :
    0 ≤ (resolveObstacles now inSky st obs).1.lives ∧
      (resolveObstacles now inSky st obs).1.lives ≤ 3 ∧
      ((resolveObstacles now inSky st obs).1.dead = false →
        1 ≤ (resolveObstacles now inSky st obs).1.lives) := by
  induction obs generalizing st with
  | nil => exact ⟨h0, h3, ha⟩
  | cons o rest ih =>
    simp only [resolveObstacles]
    split
    · split
      · exact ih st h0 h3 ha
      · split
        · exact ih _ h0 h3 ha
        · split
          · refine ⟨le_max_left _ _, ?_, ?_⟩
            · show max 0 (st.lives - 1) ≤ 3
              omega
            · intro hd
              exact absurd (show (true : Bool) = false from hd) (by decide)
          · rename_i hnl
            have hnl1 : (1 : ℤ) ≤ max 0 (st.lives - 1) := by omega
            exact ih _ (le_max_left _ _)
              (show max 0 (st.lives - 1) ≤ 3 by omega)
              (fun _ => hnl1)
    · exact ih st h0 h3 ha

theorem powerEffect_lives_inv (k : PowerKind) (now : Nat) (s : GState)
    (h0 : 0 ≤ s.lives) (h3 : s.lives ≤ 3) (ha : s.dead = false → 1 ≤ s.lives) :
    0 ≤ (powerEffect k now s).lives ∧ (powerEffect k now s).lives ≤ 3 ∧
      ((powerEffect k now s).dead = false → 1 ≤ (powerEffect k now s).lives) := by
  cases k <;> try exact ⟨h0, h3, ha⟩
  refine ⟨?_, ?_, fun _ => ?_⟩
  · show (0 : ℤ) ≤ min 3 (s.lives + 1)
    omega
  · show min 3 (s.lives + 1) ≤ 3
    omega
  · show (1 : ℤ) ≤ min 3 (s.lives + 1)
    omega

theorem applyPowerTouches_lives_inv (now : Nat) (ks : List PowerKind)
    (s : GState) (h0 : 0 ≤ s.lives) (h3 : s.lives ≤ 3)
    (ha : s.dead = false → 1 ≤ s.lives) :
    0 ≤ (applyPowerTouches now ks s).lives ∧
      (applyPowerTouches now ks s).lives ≤ 3 ∧
      ((applyPowerTouches now ks s).dead = false →
        1 ≤ (applyPowerTouches now ks s).lives) := by
  induction ks generalizing s with
  | nil => exact ⟨h0, h3, ha⟩
  | cons k ks ih =>
    simp only [applyPowerTouches]
    obtain ⟨g0, g3, gz⟩ := powerEffect_lives_inv k now s h0 h3 ha
    exact ih _ g0 g3 gz

theorem applyObstaclePass_lives (now : Nat) (b : Bool) (obs : List Obst)
    (s : GState) :
    (applyObstaclePass now b obs s).lives =
      (resolveObstacles now b
        ⟨s.lives, s.dead, s.shieldUntil, s.invincibleUntil⟩ obs).1.lives := rfl

theorem applyObstaclePass_dead (now : Nat) (b : Bool) (obs : List Obst)
    (s : GState) :
    (applyObstaclePass now b obs s).dead =
      (resolveObstacles now b
        ⟨s.lives, s.dead, s.shieldUntil, s.invincibleUntil⟩ obs).1.dead := rfl

theorem animateFrame_lives_inv (inp : FrameInput) (s : GState)
    (h0 : 0 ≤ s.lives) (h3 : s.lives ≤ 3) (ha : s.dead = false → 1 ≤ s.lives) :
    0 ≤ (animateFrame inp s).lives ∧ (animateFrame inp s).lives ≤ 3 ∧
      ((animateFrame inp s).dead = false → 1 ≤ (animateFrame inp s).lives) := by
  unfold animateFrame
  split
  · exact ⟨h0, h3, ha⟩
  · simp only [frameCore]
    set x := applyOrbPickups inp.now inp.orbHits
      (comboPerk inp.now (decide (inp.now < s.flyUntil)) (frameTiming inp s))
      with hx
    have hx0 : x.lives = s.lives := by
      rw [hx, applyOrbPickups_lives, comboPerk_lives, frameTiming_lives]
    have hxd : x.dead = s.dead := by
      rw [hx, applyOrbPickups_dead, comboPerk_dead, frameTiming_dead]
    have hyinv : 0 ≤ (applyObstaclePass inp.now
          (decide (inp.now < s.flyUntil)) inp.obstacles x).lives ∧
        (applyObstaclePass inp.now
          (decide (inp.now < s.flyUntil)) inp.obstacles x).lives ≤ 3 ∧
        ((applyObstaclePass inp.now
          (decide (inp.now < s.flyUntil)) inp.obstacles x).dead = false →
          1 ≤ (applyObstaclePass inp.now
            (decide (inp.now < s.flyUntil)) inp.obstacles x).lives) := by
      exact resolveObstacles_fst_inv inp.now (decide (inp.now < s.flyUntil))
        inp.obstacles ⟨x.lives, x.dead, x.shieldUntil, x.invincibleUntil⟩
        (by show (0 : ℤ) ≤ x.lives; rw [hx0]; exact h0)
        (by show x.lives ≤ 3; rw [hx0]; exact h3)
        (by show x.dead = false → 1 ≤ x.lives
            rw [hx0, hxd]
            exact ha)
    obtain ⟨g0, g3, gz⟩ := applyPowerTouches_lives_inv inp.now inp.powerHits
      (applyObstaclePass inp.now (decide (inp.now < s.flyUntil))
        inp.obstacles x) hyinv.1 hyinv.2.1 hyinv.2.2
    refine ⟨?_, ?_, ?_⟩
    · rw [frameBaseline_lives]
      exact g0
    · rw [frameBaseline_lives]
      exact g3
    · rw [frameBaseline_dead, frameBaseline_lives]
      exact gz

/-! ### Claim theorems for scoring and lives -/

/-- C2: for every frame of a non-terminal run, the cumulative score after
the frame is at least the score before it: orb pickups only ever add the
non-negative rounded award, the collision pass and power-up touches never
write the score, and the distance baseline is applied with max. -/
theorem c2_score_monotone (inp : FrameInput) (s : GState)
    (h : s.dead = false) :
    s.score ≤ (animateFrame inp s).score := by
  unfold animateFrame
  split
  · exact le_refl _
  · simp only [frameCore]
    refine le_trans ?_ (frameBaseline_score_le _)
    rw [applyPowerTouches_score, applyObstaclePass_score]
    refine le_trans ?_ (applyOrbPickups_score_le _ _ _)
    rw [comboPerk_score, frameTiming_score]

/-- C2 witness: the score monotonicity theorem applied to the fresh-run
state and a frame with two orb pickups. -/
theorem c2_score_monotone_witness :
    initState.score ≤
      (animateFrame
        { now := 16, paused := false, orbHits := 2, obstacles := [],
          powerHits := [] } initState).score :=
  c2_score_monotone _ initState rfl

/-- C3: in every reachable state the lives counter stays inside [0, 3]
(an unshielded hit writes max(0, lives - 1), a heart pickup writes
min(3, lives + 1) from the initial 3), and a live run always holds at
least one life: equivalently, on the frame where lives reaches 0 the run
is marked dead. -/
theorem c3_lives_bound (inps : List FrameInput) :
    0 ≤ (reach inps).lives ∧ (reach inps).lives ≤ 3 ∧
      ((reach inps).dead = false → 1 ≤ (reach inps).lives) := by
  suffices h : ∀ s : GState, 0 ≤ s.lives → s.lives ≤ 3 →
      (s.dead = false → 1 ≤ s.lives) →
      0 ≤ (inps.foldl (fun s inp => animateFrame inp s) s).lives ∧
        (inps.foldl (fun s inp => animateFrame inp s) s).lives ≤ 3 ∧
        ((inps.foldl (fun s inp => animateFrame inp s) s).dead = false →
          1 ≤ (inps.foldl (fun s inp => animateFrame inp s) s).lives) by
    exact h initState (by norm_num [initState]) (by norm_num [initState])
      (fun _ => by norm_num [initState])
  induction inps with
  | nil => exact fun s h0 h3 ha => ⟨h0, h3, ha⟩
  | cons inp rest ih =>
    intro s h0 h3 ha
    simp only [List.foldl_cons]
    obtain ⟨g0, g3, gz⟩ := animateFrame_lives_inv inp s h0 h3 ha
    exact ih _ g0 g3 gz

theorem applyPowerTouches_nil (now : Nat) (s : GState) :
    applyPowerTouches now [] s = s := rfl

theorem frameBaseline_shieldUntil (s : GState) :
    (frameBaseline s).shieldUntil = s.shieldUntil := by
  unfold frameBaseline; split <;> rfl

theorem frameBaseline_obstacles (s : GState) :
    (frameBaseline s).obstacles = s.obstacles := by
  unfold frameBaseline; split <;> rfl

/-- Shield branch of the collision pass on a single active overlapping
obstacle, neither flying nor invincible: the obstacle is deactivated and
the shield timer is set to the 400 ms grace. -/
theorem resolveObstacles_shield_single (now : Nat) (st : HitSt)
    (hinv : st.invincibleUntil ≤ now) (hsh : now < st.shieldUntil) :
    resolveObstacles now false st [⟨true, true⟩] =
      ({ st with shieldUntil := now + 400 }, [⟨false, true⟩]) := by
  have h1 : decide (now < st.invincibleUntil) = false :=
    decide_eq_false (by omega)
  simp [resolveObstacles, h1, hsh]

/-- C3 witness: the lives bound evaluated on a concrete three-frame run
in which the player takes an unshielded hit and then picks up a heart. -/
theorem c3_lives_bound_witness :
    0 ≤ (reach
      [ { now := 16, paused := false, orbHits := 0,
          obstacles := [⟨true, true⟩], powerHits := [] },
        { now := 1032, paused := false, orbHits := 0, obstacles := [],
          powerHits := [PowerKind.heart] } ]).lives ∧
    (reach
      [ { now := 16, paused := false, orbHits := 0,
          obstacles := [⟨true, true⟩], powerHits := [] },
        { now := 1032, paused := false, orbHits := 0, obstacles := [],
          powerHits := [PowerKind.heart] } ]).lives ≤ 3 ∧
    ((reach
      [ { now := 16, paused := false, orbHits := 0,
          obstacles := [⟨true, true⟩], powerHits := [] },
        { now := 1032, paused := false, orbHits := 0, obstacles := [],
          powerHits := [PowerKind.heart] } ]).dead = false →
      1 ≤ (reach
      [ { now := 16, paused := false, orbHits := 0,
          obstacles := [⟨true, true⟩], powerHits := [] },
        { now := 1032, paused := false, orbHits := 0, obstacles := [],
          powerHits := [PowerKind.heart] } ]).lives) :=
  c3_lives_bound _

/-! ### Claim theorems for the shield, the modifier timers and spawning -/

/-- C4 counterexample: with the shield timer active (now = 1000 <
shieldUntil = 2000) and exactly one active overlapping obstacle, but the
wings flight also active (flyUntil = 3000 > now), the source skips the
collision entirely (part_004 line 1547): the obstacle stays active and
no shield grace replaces the 2000 ms shield timer, against the claim
that shield-active overlaps always deactivate the obstacle. -/
theorem c4_counterexample :
    (1000 : Nat) <
      GState.shieldUntil
        { initState with shieldUntil := 2000, flyUntil := 3000 } ∧
    (animateFrame
      { now := 1000, paused := false, orbHits := 0,
        obstacles := [⟨true, true⟩], powerHits := [] }
      { initState with shieldUntil := 2000, flyUntil := 3000 }).obstacles =
      [⟨true, true⟩] ∧
    (animateFrame
      { now := 1000, paused := false, orbHits := 0,
        obstacles := [⟨true, true⟩], powerHits := [] }
      { initState with shieldUntil := 2000, flyUntil := 3000 }).shieldUntil =
      2000 := by
  decide

/-- C4 (amended): on a frame where the shield timer is active, the
player is neither flying nor inside a post-hit invincibility window, and
the padded player box overlaps the single active obstacle, resolving the
collision keeps lives unchanged, deactivates the obstacle, sets the
short 400 ms shield grace, and causes no death. -/
theorem c4_shield_absorbs (inp : FrameInput) (s : GState)
    (hp : inp.paused = false) (hd : s.dead = false)
    (hfly : s.flyUntil ≤ inp.now) (hinv : s.invincibleUntil ≤ inp.now)
    (hsh : inp.now < s.shieldUntil)
    (hobs : inp.obstacles = [⟨true, true⟩])
    (hpw : inp.powerHits = []) :
    (animateFrame inp s).lives = s.lives ∧
      (animateFrame inp s).obstacles = [⟨false, true⟩] ∧
      (animateFrame inp s).shieldUntil = inp.now + 400 ∧
      (animateFrame inp s).dead = false := by
  unfold animateFrame
  rw [hp, hd]
  simp only [Bool.or_self, Bool.false_eq_true, if_false]
  simp only [frameCore, hobs, hpw]
  have hbf : decide (inp.now < s.flyUntil) = false :=
    decide_eq_false (by omega)
  rw [hbf]
  set x := applyOrbPickups inp.now inp.orbHits
    (comboPerk inp.now false (frameTiming inp s)) with hx
  have hxl : x.lives = s.lives := by
    rw [hx, applyOrbPickups_lives, comboPerk_lives, frameTiming_lives]
  have hxd : x.dead = s.dead := by
    rw [hx, applyOrbPickups_dead, comboPerk_dead, frameTiming_dead]
  have hxs : x.shieldUntil = s.shieldUntil := by
    rw [hx, applyOrbPickups_shieldUntil, comboPerk_shieldUntil]
    rfl
  have hxi : x.invincibleUntil = s.invincibleUntil := by
    rw [hx, applyOrbPickups_invincibleUntil, comboPerk_invincibleUntil]
    rfl
  have hpassEq : applyObstaclePass inp.now false [⟨true, true⟩] x =
      { x with shieldUntil := inp.now + 400, obstacles := [⟨false, true⟩] } := by
    unfold applyObstaclePass
    rw [resolveObstacles_shield_single inp.now
      ⟨x.lives, x.dead, x.shieldUntil, x.invincibleUntil⟩
      (by show x.invincibleUntil ≤ inp.now; rw [hxi]; exact hinv)
      (by show inp.now < x.shieldUntil; rw [hxs]; exact hsh)]
  rw [hpassEq, applyPowerTouches_nil]
  refine ⟨?_, ?_, ?_, ?_⟩
  · rw [frameBaseline_lives]
    show x.lives = s.lives
    rw [hxl]
  · rw [frameBaseline_obstacles]
  · rw [frameBaseline_shieldUntil]
  · rw [frameBaseline_dead]
    show x.dead = false
    rw [hxd, hd]

/-- C4 witness: the amended shield theorem applied at now = 1000 to a
state with the shield lasting to 2000 ms, no flight, no invincibility,
and one active overlapping obstacle. -/
theorem c4_shield_absorbs_witness :
    (animateFrame
      { now := 1000, paused := false, orbHits := 0,
        obstacles := [⟨true, true⟩], powerHits := [] }
      { initState with shieldUntil := 2000 }).lives =
      GState.lives { initState with shieldUntil := 2000 } ∧
    (animateFrame
      { now := 1000, paused := false, orbHits := 0,
        obstacles := [⟨true, true⟩], powerHits := [] }
      { initState with shieldUntil := 2000 }).obstacles = [⟨false, true⟩] ∧
    (animateFrame
      { now := 1000, paused := false, orbHits := 0,
        obstacles := [⟨true, true⟩], powerHits := [] }
      { initState with shieldUntil := 2000 }).shieldUntil = 1000 + 400 ∧
    (animateFrame
      { now := 1000, paused := false, orbHits := 0,
        obstacles := [⟨true, true⟩], powerHits := [] }
      { initState with shieldUntil := 2000 }).dead = false :=
  c4_shield_absorbs _ _ rfl rfl (by decide) (by decide) (by decide) rfl rfl

/-- C5: at every power-up pickup whose pre-existing timer was set no
later than now + duration (true of every reachable pickup, since each
kind only ever receives an earlier now plus the same duration, or the
shorter shield grace), the assignment until := now + duration of
part_004 lines 1587-1592 equals max(current, now + duration), so the
timer is refreshed and never falls below its remaining time. -/
theorem c5_modifier_refresh (k : TimerKind) (now : Nat) (s : GState)
    (h : timerSel k s ≤ now + durMs k) :
    timerSel k (powerEffect (TimerKind.toPower k) now s) =
      max (timerSel k s) (now + durMs k) := by
  cases k <;>
    simp only [timerSel, TimerKind.toPower, powerEffect, durMs] at h ⊢ <;>
    omega

/-- C5 witness: acquiring boost with 2000 ms remaining (timer at 12000,
now = 10000) and BOOST_MS = 6000 yields exactly
max(12000, 10000 + 6000) = 16000. -/
theorem c5_modifier_refresh_witness :
    timerSel TimerKind.boost
      (powerEffect (TimerKind.toPower TimerKind.boost) 10000
        { initState with boostUntil := 12000 }) =
      max (timerSel TimerKind.boost { initState with boostUntil := 12000 })
        (10000 + durMs TimerKind.boost) :=
  c5_modifier_refresh TimerKind.boost 10000 _ (by decide)

/-- C6: part_004 line 1449 increments the combo on every orb pickup with
no combo-window test: a pickup at now = 5000 with the previous pickup at
0 (gap 5000, twice COMBO_WINDOW_MS = 2500) moves the counter from 3
to 4, where the claim (and the older revision
src/components/Runner3D.tsx lines 1118-1120, comboUpdateLegacy) requires
a restart at 1. -/
theorem c6_combo_window_eval :
    (orbPickupStep 5000 { initState with combo := 3 }).combo = 4 ∧
      comboAfterPickup 3 = 4 ∧ comboUpdateLegacy 3 0 5000 = 1 := by
  refine ⟨rfl, rfl, ?_⟩
  decide

/-- C7: every orb pickup adds exactly
round(10 * (1 + min(5, combo) * 0.2)) * riskMultiplier points, the risk
multiplier is 2 exactly when the risk timer is active at the pickup
time, and the award in the pickup step is computed from the post-bump
combo. -/
theorem c7_orb_award_formula (c now u : Nat) (s : GState) :
    orbAward c (decide (now < u)) =
      (10 + 2 * ((min 5 c : Nat) : ℤ)) * riskMult now u ∧
      (riskMult now u = 2 ↔ now < u) ∧
      (orbPickupStep now s).score =
        s.score +
          orbAward (comboAfterPickup s.combo) (decide (now < s.riskUntil)) := by
  refine ⟨?_, ?_, rfl⟩
  · rw [orbAward_eq]
    unfold riskMult COMBO_MAX
    by_cases hlt : now < u
    · simp [hlt]
    · simp [hlt]
  · unfold riskMult
    by_cases hlt : now < u
    · simp [hlt]
    · simp [hlt]

/-- C7 witness: the award formula at combo 3 with the risk timer active
(now = 1000 < riskUntil = 2000), and the pickup step at the fresh-run
state. -/
theorem c7_orb_award_formula_witness :
    orbAward 3 (decide (1000 < 2000)) =
      (10 + 2 * ((min 5 3 : Nat) : ℤ)) * riskMult 1000 2000 ∧
      (riskMult 1000 2000 = 2 ↔ 1000 < 2000) ∧
      (orbPickupStep 1000 initState).score =
        initState.score +
          orbAward (comboAfterPickup initState.combo)
            (decide (1000 < initState.riskUntil)) :=
  c7_orb_award_formula 3 1000 2000 initState

/-- The weighted chain without the FORCE_WINGS override can never yield
wings: its r < 0.82 arm sits after the r < 0.89 arm already took every
smaller draw. -/
theorem spawnPowerKindDraw_no_wings (r : ℚ) :
    spawnPowerKindDraw r ≠ PowerKind.wings := by
  unfold spawnPowerKindDraw
  split_ifs with h1 h2 h3 h4 h5 h6
  · decide
  · decide
  · decide
  · decide
  · exact absurd (lt_of_lt_of_le h5 (by norm_num)) h4
  · decide
  · decide

/-- C8: spawnPower cannot produce each of the seven kinds: the
FORCE_WINGS test flag (part_004 line 932) is left true, so every RNG
draw yields wings — at r = 0.1 the comment weights promise magnet, yet
wings is spawned. (The chain behind the flag never yields wings either,
spawnPowerKindDraw_no_wings.) -/
theorem c8_spawn_power_forced :
    spawnPowerKind (1 / 10 : ℚ) = PowerKind.wings ∧
      ∀ r : ℚ, spawnPowerKind r = PowerKind.wings :=
  ⟨rfl, fun _ => rfl⟩

/-! ### Pause, determinism and the leaderboard -/

/-- C9 counterexample: in the trace pauseRunInputs the run is paused
from just after the 16 ms frame until the resuming frame at 5016 ms;
since lastFrameTime is not reset on resume (part_004 lines 1076,
1103-1114), the resuming frame computes and applies
dt = 5016 - 16 = 5000, the whole paused wall-clock span, as that
frame's simulated dt — not the 16 ms frame length the claim requires.
(t = 2 records that the two paused frames advanced no simulation
state.) -/
theorem c9_counterexample :
    (reach pauseRunInputs).lastDt = 5000 ∧ (reach pauseRunInputs).t = 2 := by
  decide

/-- C9 (amended): pausing is a true freeze — a paused frame changes no
simulation state at all — but the first frame after resuming computes
dt = max(1, now - lastFrameTime) from the last unpaused frame, so the
wall-clock span of the pause is applied as that frame's dt to the
dt-scaled updates (lane tween rate limit, particle life, camera bob). -/
theorem c9_pause_freeze (inp : FrameInput) (s : GState) :
    (inp.paused = true → animateFrame inp s = s) ∧
      (inp.paused = false → s.dead = false →
        (animateFrame inp s).lastDt = max 1 (inp.now - s.lastFrameTime)) := by
  constructor
  · intro hp
    unfold animateFrame
    rw [hp]
    simp
  · intro hp hd
    unfold animateFrame
    rw [hp, hd]
    simp only [Bool.or_self, Bool.false_eq_true, if_false]
    simp only [frameCore]
    rw [frameBaseline_lastDt, applyPowerTouches_lastDt,
      applyObstaclePass_lastDt, applyOrbPickups_lastDt, comboPerk_lastDt,
      frameTiming_lastDt]

/-- C9 witness: the pause theorem applied to a paused frame at 2000 ms
on the fresh-run state, and to an unpaused frame at 16 ms. -/
theorem c9_pause_freeze_witness :
    animateFrame
      { now := 2000, paused := true, orbHits := 0, obstacles := [],
        powerHits := [] } initState = initState ∧
    (animateFrame
      { now := 16, paused := false, orbHits := 0, obstacles := [],
        powerHits := [] } initState).lastDt =
      max 1 (16 - initState.lastFrameTime) :=
  ⟨(c9_pause_freeze _ initState).1 rfl, (c9_pause_freeze _ initState).2 rfl rfl⟩

theorem distScore_mono {a b : Nat} (hab : a ≤ b) : distScore a ≤ distScore b := by
  unfold distScore
  exact Nat.div_le_div_right (Nat.mul_le_mul_right 5 hab)

/-- Characterization of a zero-input run: after n frames at 16 ms only
the tick counter, the frame timing and the baseline score have moved. -/
theorem reach_zeroRun (n : Nat) : reach (zeroRun n) = zeroState n := by
  induction n with
  | zero => decide
  | succ n ih =>
    have hsplit : zeroRun (n + 1) = zeroRun n ++
        [{ now := 16 * (n + 1), paused := false, orbHits := 0,
           obstacles := [], powerHits := [] }] := by
      unfold zeroRun
      rw [List.range_succ, List.map_append]
      rfl
    have hfold : reach (zeroRun (n + 1)) =
        animateFrame
          { now := 16 * (n + 1), paused := false, orbHits := 0,
            obstacles := [], powerHits := [] } (reach (zeroRun n)) := by
      rw [hsplit]
      unfold reach
      rw [List.foldl_append]
      rfl
    rw [hfold, ih]
    have hsky : decide (16 * (n + 1) < (zeroState n).flyUntil) = false :=
      decide_eq_false (show ¬ 16 * (n + 1) < 0 from Nat.not_lt_zero _)
    simp only [animateFrame, frameCore, hsky, Bool.or_self,
      Bool.false_eq_true, if_false]
    simp only [frameTiming, comboPerk, applyOrbPickups, applyObstaclePass,
      resolveObstacles, applyPowerTouches, frameBaseline, zeroState,
      initState]
    norm_num [GState.mk.injEq]
    constructor
    · exact distScore_mono (Nat.le_succ n)
    · omega

/-- C1 (amended): the run RNG stream is a function of the effective seed
(dailySeed XOR 0xB055) XOR runSalt alone, so two runs reproduce the same
draws — hence the same generated layout — exactly when their effective
seeds agree; a fixed dailySeed does not ensure this, because the salt is
the wall clock of line 417. Separately, a 600-tick zero-input run at
dt = 16 ms ends with exactly the baseline score floor(600 * 0.05) = 30. -/
theorem c1_seed_determinism_and_baseline (d s1 s2 : Nat)
    (h : mixSeed d s1 = mixSeed d s2) :
    (∀ k, mulberryOut (mixSeed d s1) k = mulberryOut (mixSeed d s2) k) ∧
      (∀ k0, preloadLanes (mixSeed d s1) k0 = preloadLanes (mixSeed d s2) k0) ∧
      (reach (zeroRun 600)).score = 30 ∧ distScore 600 = 30 := by
  refine ⟨fun k => by rw [h], fun k0 => by rw [h], ?_, by decide⟩
  rw [reach_zeroRun]
  decide

/-- C1 witness: the amended theorem applied to dailySeed 42 with the
same salt 7 on both runs. -/
theorem c1_seed_determinism_and_baseline_witness :
    (∀ k, mulberryOut (mixSeed 42 7) k = mulberryOut (mixSeed 42 7) k) ∧
      (∀ k0, preloadLanes (mixSeed 42 7) k0 = preloadLanes (mixSeed 42 7) k0) ∧
      (reach (zeroRun 600)).score = 30 ∧ distScore 600 = 30 :=
  c1_seed_determinism_and_baseline 42 7 7 rfl

/-- C1 counterexample: dailySeed 42 with per-run salts 0 and 1 — the
salt is Date.now() and so differs between two runs — give different
effective seeds and visibly different preloaded obstacle lanes, so a
fixed seed alone does not reproduce the layout. -/
theorem c1_counterexample :
    preloadLanes (mixSeed 42 0) 0 ≠ preloadLanes (mixSeed 42 1) 0 := by
  decide

/-- C10: the leaderboard POST stores max(previous, submitted): with a
previously stored score the stored value afterwards is the max, a lower
submission leaves the stored value unchanged, the JSON response reports
that max, and a first submission stores the submitted score itself. -/
theorem c10_leaderboard_post_max (p sc : ℚ) :
    lbStoredAfter (some p) sc = some (max p sc) ∧
      lbResponseScore (some p) sc = max p sc ∧
      (sc ≤ p → lbStoredAfter (some p) sc = some p) ∧
      lbStoredAfter none sc = some sc := by
  refine ⟨?_, rfl, ?_, rfl⟩
  · simp only [lbStoredAfter, lbNext]
    split_ifs with hne
    · rfl
    · push_neg at hne
      rw [hne]
  · intro hle
    simp only [lbStoredAfter, lbNext]
    rw [max_eq_left hle]
    simp

/-- C10 witness: the POST theorem at stored score 100 and submission 40:
the store keeps 100 and the response reports 100. -/
theorem c10_leaderboard_post_max_witness :
    lbStoredAfter (some 100) 40 = some (max 100 40) ∧
      lbResponseScore (some 100) 40 = max 100 40 ∧
      ((40 : ℚ) ≤ 100 → lbStoredAfter (some 100) 40 = some 100) ∧
      lbStoredAfter none (40 : ℚ) = some 40 :=
  c10_leaderboard_post_max 100 40

end Surfer
